import Mathlib

/-!
Verification of the OpenGL backend core (`src/backend/gl/src/lib.rs`):
shared context state, device-open protocol, memory-type abstraction,
the thread-bound ownership wrapper `Starc`/`Wstarc`, queue families and
the diagnostics error model.  Rust values are embedded shallowly:
bitflag sets become `Nat` bitmasks, `Cell<bool>` state is passed
explicitly, native GL calls are recorded in a trace, and `panic!` /
failed assertions become an explicit `panic` outcome.
-/

namespace Gfx

/-! ### Native error codes (constants of the external `gl` crate) -/

namespace gl

def NO_ERROR : Nat := 0
def INVALID_ENUM : Nat := 0x0500
def INVALID_VALUE : Nat := 0x0501
def INVALID_OPERATION : Nat := 0x0502
def OUT_OF_MEMORY : Nat := 0x0505
def INVALID_FRAMEBUFFER_OPERATION : Nat := 0x0506
def FRAMEBUFFER_SRGB : Nat := 0x8DB9
def UNPACK_ALIGNMENT : Nat := 0x0CF5
def PROGRAM_POINT_SIZE : Nat := 0x8642

end gl

/-- The typed error enumeration `Error` of `lib.rs` (lines 100-109). -/
inductive Error where
  | NoError
  | InvalidEnum
  | InvalidValue
  | InvalidOperation
  | InvalidFramebufferOperation
  | OutOfMemory
  | UnknownError
  deriving DecidableEq, Repr

/-- `Error::from_error_code` (lib.rs lines 112-122): maps a native error
code to the typed enumeration, with `UnknownError` as the catch-all. -/
def Error.from_error_code (error_code : Nat) : Error :=
  if error_code = gl.NO_ERROR then .NoError
  else if error_code = gl.INVALID_ENUM then .InvalidEnum
  else if error_code = gl.INVALID_VALUE then .InvalidValue
  else if error_code = gl.INVALID_OPERATION then .InvalidOperation
  else if error_code = gl.INVALID_FRAMEBUFFER_OPERATION then .InvalidFramebufferOperation
  else if error_code = gl.OUT_OF_MEMORY then .OutOfMemory
  else .UnknownError

/-! ### Capability data carried by the shared context -/

/-- `info::PrivateCaps` fields consumed by `lib.rs` (`vertex_array` in
`open`, `map` in `memory_properties`). -/
structure PrivateCaps where
  vertex_array : Bool
  map : Bool
  deriving DecidableEq, Repr

/-- The `is_embedded` field of `info::Version` consumed by `open`. -/
structure Version where
  is_embedded : Bool
  deriving DecidableEq, Repr

/-- The part of `info::Info` consumed by `lib.rs`. -/
structure Info where
  version : Version
  deriving DecidableEq, Repr

/-- `hal::Features` is a bitflags set; embedded as a `Nat` bitmask. -/
abbrev Features := Nat

/-- bitflags `contains`: `self.bits & other.bits == other.bits`. -/
def Features.contains (self other : Features) : Bool :=
  self &&& other == other

/-- `info::LegacyFeatures` is a bitflags set; embedded as a `Nat` bitmask. -/
abbrev LegacyFeatures := Nat

/-- Modelled from the spec: the `SRGB_COLOR` flag of `info::LegacyFeatures`
(`info.rs` is not part of the analyzed source); a distinguished bit,
consumed by `open` to decide sRGB framebuffer emulation. -/
def LegacyFeatures.SRGB_COLOR : LegacyFeatures := 1

/-- The shared context state `Share` (lib.rs lines 126-135).  The native
context handle is external; the `Cell<bool>` open flag becomes the
explicit field `open_flag`. -/
structure Share where
  features : Features
  legacy_features : LegacyFeatures
  private_caps : PrivateCaps
  info : Info
  open_flag : Bool
  deriving DecidableEq, Repr

/-! ### Native-call traces and `Share::check` -/

/-- One native GL call issued by the code under analysis. -/
inductive GLCall where
  | Enable (cap : Nat)
  | PixelStorei (pname : Nat) (param : Nat)
  | GenVertexArrays (n : Nat)
  | BindVertexArray (vao : Nat)
  | GetError
  deriving DecidableEq, Repr

/-- `Share::check` (lib.rs lines 139-148).  `debug` is
`cfg!(debug_assertions)`; `getError` is the value the native
`glGetError` query would return.  Returns the result together with the
trace of native calls the method performs. -/
def Share.check (_s : Share) (debug : Bool) (getError : Nat) :
    Except Error Unit × List GLCall :=
  if debug then
    let err := Error.from_error_code getError
    if err ≠ Error.NoError then (.error err, [.GetError])
    else (.ok (), [.GetError])
  else (.ok (), [])

/-! ### The thread-bound ownership wrapper `Starc` / `Wstarc`

`std::sync::Arc` / `Weak` are embedded as a snapshot of the shared
allocation: the stored value together with its current strong and weak
reference counts.  Thread identities are abstract, `ThreadId := Nat`. -/

abbrev ThreadId := Nat

/-- Snapshot of an `Arc<T>` allocation: value plus current counts. -/
structure Arc (T : Type) where
  value : T
  strong : Nat
  weak : Nat
  deriving DecidableEq, Repr

/-- `Arc::clone`: bumps the strong count, same allocation. -/
def Arc.clone {T : Type} (a : Arc T) : Arc T :=
  { a with strong := a.strong + 1 }

/-- `Arc::try_unwrap`: succeeds exactly when this is the only strong
holder, otherwise hands the `Arc` back unchanged. -/
def Arc.try_unwrap {T : Type} (a : Arc T) : Except (Arc T) T :=
  if a.strong = 1 then .ok a.value else .error a

/-- `Arc::get_mut`: mutable access exactly when there is no other strong
or weak holder. -/
def Arc.get_mut {T : Type} (a : Arc T) : Option T :=
  if a.strong = 1 ∧ a.weak = 0 then some a.value else none

/-- Snapshot of a `Weak<T>` observer of the same allocation. -/
structure RWeak (T : Type) where
  value : T
  strong : Nat
  weak : Nat
  deriving DecidableEq, Repr

/-- `Arc::downgrade`: a weak observer of the same allocation. -/
def Arc.downgrade {T : Type} (a : Arc T) : RWeak T :=
  { value := a.value, strong := a.strong, weak := a.weak + 1 }

/-- `Weak::upgrade`: a new strong reference exactly while the strong
count is still positive. -/
def RWeak.upgrade {T : Type} (w : RWeak T) : Option (Arc T) :=
  if 0 < w.strong then some { value := w.value, strong := w.strong + 1, weak := w.weak }
  else none

/-- `Starc<T>` (lib.rs lines 154-157): an `Arc` plus the identity of the
thread that created it. -/
structure Starc (T : Type) where
  arc : Arc T
  thread : ThreadId
  deriving DecidableEq, Repr

/-- `impl Clone for Starc` (lib.rs lines 159-166): clones the arc and
copies the thread identity. -/
def Starc.clone {T : Type} (s : Starc T) : Starc T :=
  { arc := s.arc.clone, thread := s.thread }

/-- `Starc::new` (lib.rs lines 176-181): fresh allocation owned by the
current thread. -/
def Starc.new {T : Type} (value : T) (current : ThreadId) : Starc T :=
  { arc := { value := value, strong := 1, weak := 0 }, thread := current }

/-- `Starc::try_unwrap` (lib.rs lines 184-193): delegates to
`Arc::try_unwrap`, rebuilding the wrapper with the same arc and the same
captured thread on failure. -/
def Starc.try_unwrap {T : Type} (s : Starc T) : Except (Starc T) T :=
  match s.arc.try_unwrap with
  | .ok v => .ok v
  | .error a => .error { arc := a, thread := s.thread }

/-- `Wstarc<T>` (lib.rs lines 223-226). -/
structure Wstarc (T : Type) where
  weak : RWeak T
  thread : ThreadId
  deriving DecidableEq, Repr

/-- `Starc::downgrade` (lib.rs lines 196-201): weak counterpart carrying
the same thread identity. -/
def Starc.downgrade {T : Type} (s : Starc T) : Wstarc T :=
  { weak := s.arc.downgrade, thread := s.thread }

/-- `Starc::get_mut` (lib.rs lines 204-207): delegates directly to
`Arc::get_mut`; note that no thread identity is consulted. -/
def Starc.get_mut {T : Type} (s : Starc T) : Option T :=
  s.arc.get_mut

/-- `impl Deref for Starc` (lib.rs lines 212-218): asserts the current
thread equals the captured one, then exposes the value.  `none` models
the failed assertion. -/
def Starc.deref {T : Type} (s : Starc T) (current : ThreadId) : Option T :=
  if current = s.thread then some s.arc.value else none

/-- `Wstarc::upgrade` (lib.rs lines 228-234): upgrades the weak
reference and restores the captured thread identity. -/
def Wstarc.upgrade {T : Type} (w : Wstarc T) : Option (Starc T) :=
  (w.weak.upgrade).map (fun arc => { arc := arc, thread := w.thread })

/-! ### Queue families, adapters and the device-open protocol -/

/-- `QueueFamily` (lib.rs line 427): a unit struct. -/
structure QueueFamily where
  deriving DecidableEq, Repr

/-- `QueueFamily::queue_type` returns `hal::QueueType::General`. -/
inductive QueueType where
  | General
  | Graphics
  | Compute
  | Transfer
  deriving DecidableEq, Repr

def QueueFamily.queue_type (_f : QueueFamily) : QueueType := .General

/-- `QueueFamily::max_queues` (lib.rs lines 433-435). -/
def QueueFamily.max_queues (_f : QueueFamily) : Nat := 1

/-- `QueueFamily::id` (lib.rs lines 436-438). -/
def QueueFamily.id (_f : QueueFamily) : Nat := 0

/-- The `queue_families` field of the adapter built by
`PhysicalDevice::new_adapter` (lib.rs line 287): `vec![QueueFamily]`. -/
def new_adapter_queue_families : List QueueFamily := [{}]

/-- `hal::QueuePriority` is a float whose value is never inspected by
this backend (only the priority-list length is, via `assert_eq!`), so it
is embedded as `Unit`. -/
abbrev QueuePriority := Unit

/-- The variants of `hal::error::DeviceCreationError` (external `hal`
crate) used by this backend. -/
inductive DeviceCreationError where
  | OutOfHostMemory
  | OutOfDeviceMemory
  | InitializationFailed
  | MissingExtension
  | MissingFeature
  | TooManyObjects
  | DeviceLost
  deriving DecidableEq, Repr

/-- A `queue::CommandQueue` as constructed in `open`
(`queue::CommandQueue::new(&self.0, vao)`): it carries the shared
context handle and the baseline VAO id; only the latter is visible
here. -/
structure CommandQueue where
  vao : Nat
  deriving DecidableEq, Repr

/-- A `hal::backend::RawQueueGroup` built in `open`: the proto family
plus the queues added to it. -/
structure RawQueueGroup where
  family : QueueFamily
  queues : List CommandQueue
  deriving DecidableEq, Repr

/-- The `hal::Gpu` value returned by a successful `open`: the `Device`
shares the context state (here: the `Share` snapshot it was built
from), plus one queue group per requested family. -/
structure Gpu where
  device : Share
  queues : List RawQueueGroup
  deriving DecidableEq, Repr

/-- Outcome of running `open`: a value, a returned error, or a
`panic!` / failed `assert_eq!`. -/
inductive OpenOutcome (α : Type) where
  | ok (v : α)
  | err (e : DeviceCreationError)
  | panic
  deriving DecidableEq, Repr

/-- External inputs to `open`: whether this is a diagnostics
(`cfg!(debug_assertions)`) build, the value the native error query
would return inside `Share::check`, and the VAO name the native
`glGenVertexArrays` would produce. -/
structure OpenEnv where
  debug : Bool
  getError : Nat
  genVao : Nat
  deriving DecidableEq, Repr

/-- `PhysicalDevice::open` (lib.rs lines 298-363), embedded as a
function from the current shared state, the environment, the requested
`(family, priorities)` list and the requested feature set to the
updated shared state, the trace of native calls issued, and the
outcome.  The control flow mirrors the source exactly: the
too-many-objects check, setting the open flag, the feature check, the
permanent-state calls, baseline VAO creation, `Share::check` (panic on
error), then queue-group construction with its `assert_eq!` on each
priority-list length. -/
def PhysicalDevice.open_dev (pd : Share) (env : OpenEnv)
    (families : List (QueueFamily × List QueuePriority))
    (requested_features : Features) :
    Share × List GLCall × OpenOutcome Gpu :=
  if pd.open_flag then
    (pd, [], .err .TooManyObjects)
  else
    let s := { pd with open_flag := true }
    if ¬ (Features.contains s.features requested_features) then
      (s, [], .err .MissingFeature)
    else
      let calls0 :=
        if s.legacy_features &&& LegacyFeatures.SRGB_COLOR == LegacyFeatures.SRGB_COLOR
        then [GLCall.Enable gl.FRAMEBUFFER_SRGB] else []
      let calls1 := calls0 ++ [GLCall.PixelStorei gl.UNPACK_ALIGNMENT 1]
      let calls2 := calls1 ++
        (if ¬ s.info.version.is_embedded then [GLCall.Enable gl.PROGRAM_POINT_SIZE] else [])
      let vao := if s.private_caps.vertex_array then env.genVao else 0
      let calls3 := calls2 ++
        (if s.private_caps.vertex_array
         then [GLCall.GenVertexArrays 1, GLCall.BindVertexArray vao] else [])
      let chk := Share.check s env.debug env.getError
      let calls4 := calls3 ++ chk.2
      match chk.1 with
      | .error _ => (s, calls4, .panic)
      | .ok _ =>
        if families.all (fun f => f.2.length == 1) then
          (s, calls4, .ok
            { device := s
              queues := families.map (fun f =>
                { family := f.1, queues := [{ vao := vao }] }) })
        else
          (s, calls4, .panic)

/-! ### Memory-type abstraction -/

/-! The `hal::memory::Properties` bitflags consumed here. -/

namespace Properties

def DEVICE_LOCAL : Nat := 0x1
def CPU_VISIBLE : Nat := 0x2
def COHERENT : Nat := 0x4
def CPU_CACHED : Nat := 0x8

end Properties

/-- `hal::MemoryType`. -/
structure MemoryType where
  properties : Nat
  heap_index : Nat
  deriving DecidableEq, Repr

/-- `hal::MemoryProperties`; heap sizes are `u64` values. -/
structure MemoryProperties where
  memory_types : List MemoryType
  memory_heaps : List Nat
  deriving DecidableEq, Repr

/-- `!0` on `u64`: the unknown/unbounded heap-size sentinel. -/
def HEAP_SIZE_SENTINEL : Nat := 2 ^ 64 - 1

/-- `PhysicalDevice::memory_properties` (lib.rs lines 380-415): three
memory types (device-local on heap 1, upload and download on heap 0)
when `private_caps.map` holds, one device-local type on heap 0
otherwise; `memory_heaps` is `vec![!0, !0]` in both cases. -/
def PhysicalDevice.memory_properties (pd : Share) : MemoryProperties :=
  { memory_types :=
      if pd.private_caps.map then
        [ { properties := Properties.DEVICE_LOCAL, heap_index := 1 },
          { properties := Properties.CPU_VISIBLE ||| Properties.COHERENT,
            heap_index := 0 },
          { properties := Properties.CPU_VISIBLE ||| Properties.COHERENT
              ||| Properties.CPU_CACHED,
            heap_index := 0 } ]
      else
        [ { properties := Properties.DEVICE_LOCAL, heap_index := 0 } ],
    memory_heaps := [HEAP_SIZE_SENTINEL, HEAP_SIZE_SENTINEL] }

/-- `PhysicalDevice::features` (lib.rs lines 417-419). -/
def PhysicalDevice.features (pd : Share) : Features := pd.features

/-! ### Concrete sample states used to instantiate the theorems -/

/-- A closed (no device open) shared state with no supported features,
no legacy features, and no private capabilities. -/
def sampleShare : Share :=
  { features := 0
    legacy_features := 0
    private_caps := { vertex_array := false, map := false }
    info := { version := { is_embedded := false } }
    open_flag := false }

/-- `sampleShare` with the open flag already set. -/
def sampleShareOpen : Share := { sampleShare with open_flag := true }

/-- `sampleShare` with native mapping support. -/
def sampleShareMap : Share :=
  { sampleShare with private_caps := { vertex_array := false, map := true } }

/-- A release-build environment whose native error query reports no
error. -/
def sampleEnv : OpenEnv := { debug := false, getError := 0, genVao := 1 }

/-! ## Theorems -/

/-- C3: if the shared state's open flag is already set, `open` fails
with `TooManyObjects`, issues no native call, and returns the shared
state completely unchanged. -/
theorem open_already_open_no_mutation (pd : Share) (env : OpenEnv)
    (families : List (QueueFamily × List QueuePriority)) (rf : Features)
    (h : pd.open_flag = true) :
    PhysicalDevice.open_dev pd env families rf = (pd, [], .err .TooManyObjects) := by
  simp [PhysicalDevice.open_dev, h]

/-- Witness for C3: a concrete already-open state makes the second
`open` fail with `TooManyObjects` and leaves everything unchanged. -/
theorem open_already_open_no_mutation_witness :
    sampleShareOpen.open_flag = true ∧
    PhysicalDevice.open_dev sampleShareOpen sampleEnv [] 0 =
      (sampleShareOpen, [], .err .TooManyObjects) :=
  ⟨by decide, open_already_open_no_mutation sampleShareOpen sampleEnv [] 0 (by decide)⟩

/-- C1 counterexample: at a concrete shared state supporting no
features, requesting feature bit 1 makes `open` return `MissingFeature`
with no native calls — but the open flag is left SET (the claim says it
stays unset), and a retry with corrected parameters (requesting no
features) fails with `TooManyObjects` instead of succeeding. -/
theorem open_missing_feature_cex :
    (PhysicalDevice.open_dev sampleShare sampleEnv [] 1).2.2 =
      .err .MissingFeature ∧
    (PhysicalDevice.open_dev sampleShare sampleEnv [] 1).2.1 = [] ∧
    (PhysicalDevice.open_dev sampleShare sampleEnv [] 1).1.open_flag = true ∧
    (PhysicalDevice.open_dev
      (PhysicalDevice.open_dev sampleShare sampleEnv [] 1).1
      sampleEnv [] 0).2.2 = .err .TooManyObjects := by
  decide

/-- C1 (amended): `open` with a requested feature set not contained in
the supported set returns `MissingFeature` and performs no native
calls, but the open flag — set before the feature check — is left set
by the failed call, so any subsequent `open`, even with corrected
parameters, fails with `TooManyObjects`. -/
theorem open_missing_feature (pd : Share) (env env2 : OpenEnv)
    (families families2 : List (QueueFamily × List QueuePriority))
    (rf rf2 : Features)
    (hopen : pd.open_flag = false)
    (hfeat : Features.contains pd.features rf = false) :
    PhysicalDevice.open_dev pd env families rf =
      ({ pd with open_flag := true }, [], .err .MissingFeature) ∧
    (PhysicalDevice.open_dev { pd with open_flag := true } env2 families2 rf2).2.2 =
      .err .TooManyObjects := by
  constructor
  · simp [PhysicalDevice.open_dev, hopen, hfeat]
  · simp [PhysicalDevice.open_dev]

/-- Witness for C1: the amended behavior at the concrete state. -/
theorem open_missing_feature_witness :
    sampleShare.open_flag = false ∧
    Features.contains sampleShare.features 1 = false ∧
    (PhysicalDevice.open_dev sampleShare sampleEnv [] 1 =
      ({ sampleShare with open_flag := true }, [], .err .MissingFeature) ∧
    (PhysicalDevice.open_dev { sampleShare with open_flag := true }
      sampleEnv [] 0).2.2 = .err .TooManyObjects) :=
  ⟨by decide, by decide,
    open_missing_feature sampleShare sampleEnv sampleEnv [] [] 1 0
      (by decide) (by decide)⟩

/-- C2 counterexample: at a concrete shared state without native
mapping support, `memory_properties` does return exactly one memory
type, but it reports 2 heaps, not the 1 heap the claim states. -/
theorem memory_properties_heaps_cex :
    (PhysicalDevice.memory_properties sampleShare).memory_types.length = 1 ∧
    sampleShare.private_caps.map = false ∧
    ¬ (PhysicalDevice.memory_properties sampleShare).memory_heaps.length = 1 := by
  decide

/-- C2 (amended): `memory_properties` is a pure function of the single
`map` capability flag; it returns exactly 1 memory type when mapping is
unsupported and exactly 3 when supported, a device-local type is always
present, but the heap list always has exactly 2 entries (both the
unknown-size sentinel), in both cases. -/
theorem memory_properties_spec (pd : Share) :
    (pd.private_caps.map = false →
      (PhysicalDevice.memory_properties pd).memory_types.length = 1) ∧
    (pd.private_caps.map = true →
      (PhysicalDevice.memory_properties pd).memory_types.length = 3) ∧
    (PhysicalDevice.memory_properties pd).memory_heaps =
      [HEAP_SIZE_SENTINEL, HEAP_SIZE_SENTINEL] ∧
    (∃ mt ∈ (PhysicalDevice.memory_properties pd).memory_types,
      mt.properties = Properties.DEVICE_LOCAL) ∧
    (∀ pd2 : Share, pd.private_caps.map = pd2.private_caps.map →
      PhysicalDevice.memory_properties pd = PhysicalDevice.memory_properties pd2) := by
  refine ⟨?_, ?_, rfl, ?_, ?_⟩
  · intro h; simp [PhysicalDevice.memory_properties, h]
  · intro h; simp [PhysicalDevice.memory_properties, h]
  · cases h : pd.private_caps.map <;>
      simp [PhysicalDevice.memory_properties, h]
  · intro pd2 h
    simp only [PhysicalDevice.memory_properties]
    rw [← h]

/-- Witness for C2: both hypotheses discharged at concrete states. -/
theorem memory_properties_spec_witness :
    (PhysicalDevice.memory_properties sampleShare).memory_types.length = 1 ∧
    (PhysicalDevice.memory_properties sampleShareMap).memory_types.length = 3 :=
  ⟨(memory_properties_spec sampleShare).1 (by decide),
   (memory_properties_spec sampleShareMap).2.1 (by decide)⟩

/-- C4: dereferencing a `Starc` succeeds exactly on the thread captured
at creation — a clone dereferenced on the creating thread yields the
value, dereferencing the original or a clone from any other thread
fails the assertion — and cloning copies the captured thread identity
unchanged. -/
theorem starc_deref_thread_affinity {T : Type} (s : Starc T) (t : ThreadId) :
    Starc.deref (Starc.clone s) s.thread = some s.arc.value ∧
    (Starc.clone s).thread = s.thread ∧
    (t ≠ s.thread → Starc.deref s t = none) ∧
    (t ≠ s.thread → Starc.deref (Starc.clone s) t = none) ∧
    (Starc.deref s t).isSome = (t = s.thread : Bool) := by
  refine ⟨by simp [Starc.deref, Starc.clone, Arc.clone], rfl, ?_, ?_, ?_⟩
  · intro h; simp [Starc.deref, h]
  · intro h; simp [Starc.deref, Starc.clone, h]
  · by_cases h : t = s.thread <;> simp [Starc.deref, h]

/-- Witness for C4: a wrapper created on thread 0 dereferences there
(also through a clone) but fails from thread 1. -/
theorem starc_deref_thread_affinity_witness :
    Starc.deref (Starc.clone (Starc.new (7 : Nat) 0)) (Starc.new (7 : Nat) 0).thread =
      some 7 ∧
    (1 : ThreadId) ≠ (Starc.new (7 : Nat) 0).thread ∧
    Starc.deref (Starc.new (7 : Nat) 0) 1 = none :=
  ⟨(starc_deref_thread_affinity (Starc.new (7 : Nat) 0) 1).1, by decide,
   (starc_deref_thread_affinity (Starc.new (7 : Nat) 0) 1).2.2.1 (by decide)⟩

/-- C6: `try_unwrap` with exactly one strong holder returns the inner
value; with any other strong count it returns the wrapper unchanged —
same shared allocation, same captured thread identity. -/
theorem starc_try_unwrap_spec {T : Type} (s : Starc T) :
    (s.arc.strong = 1 → Starc.try_unwrap s = .ok s.arc.value) ∧
    (s.arc.strong ≠ 1 → Starc.try_unwrap s = .error s) := by
  constructor <;> intro h <;>
    simp [Starc.try_unwrap, Arc.try_unwrap, h]

/-- Witness for C6: a sole holder (strong count 1) unwraps to the
value; after a clone (strong count 2) the wrapper comes back
unchanged. -/
theorem starc_try_unwrap_spec_witness :
    Starc.try_unwrap (Starc.new (5 : Nat) 0) = .ok 5 ∧
    Starc.try_unwrap (Starc.clone (Starc.new (5 : Nat) 0)) =
      .error (Starc.clone (Starc.new (5 : Nat) 0)) :=
  ⟨(starc_try_unwrap_spec (Starc.new (5 : Nat) 0)).1 (by decide),
   (starc_try_unwrap_spec (Starc.clone (Starc.new (5 : Nat) 0))).2 (by decide)⟩

/-- C7: upgrading a weak wrapper returns a strong wrapper — carrying
the same value and the same captured thread identity — exactly while
the strong count is positive; once every strong wrapper is dropped
(strong count zero) it returns nothing. -/
theorem wstarc_upgrade_spec {T : Type} (w : Wstarc T) :
    (0 < w.weak.strong →
      ∃ s : Starc T, Wstarc.upgrade w = some s ∧
        s.arc.value = w.weak.value ∧ s.thread = w.thread) ∧
    (w.weak.strong = 0 → Wstarc.upgrade w = none) ∧
    ((Wstarc.upgrade w).isSome = decide (0 < w.weak.strong)) := by
  refine ⟨?_, ?_, ?_⟩
  · intro h
    refine ⟨{ arc := { value := w.weak.value, strong := w.weak.strong + 1,
                       weak := w.weak.weak },
              thread := w.thread }, ?_, rfl, rfl⟩
    simp [Wstarc.upgrade, RWeak.upgrade, h]
  · intro h
    simp [Wstarc.upgrade, RWeak.upgrade, h]
  · by_cases h : 0 < w.weak.strong <;>
      simp [Wstarc.upgrade, RWeak.upgrade, h]

/-- Witness for C7: a weak wrapper over an alive allocation upgrades;
one whose strong count has dropped to zero does not. -/
theorem wstarc_upgrade_spec_witness :
    Wstarc.upgrade (Starc.downgrade (Starc.new (3 : Nat) 0)) =
      some { arc := { value := 3, strong := 2, weak := 1 }, thread := 0 } ∧
    Wstarc.upgrade { weak := { value := (3 : Nat), strong := 0, weak := 1 }, thread := 0 } =
      none :=
  ⟨by decide,
   (wstarc_upgrade_spec
      { weak := { value := (3 : Nat), strong := 0, weak := 1 }, thread := 0 }).2.1 rfl⟩

/-- C9: `Starc::get_mut` never consults the captured thread identity —
replacing the thread leaves its result unchanged — and returns the value
exactly when the wrapper is the unique reference (strong count 1, weak
count 0); unlike `deref`, no thread-affinity assertion gates it. -/
theorem starc_get_mut_spec {T : Type} (s : Starc T) (t : ThreadId) :
    Starc.get_mut { s with thread := t } = Starc.get_mut s ∧
    (Starc.get_mut s = some s.arc.value ↔ s.arc.strong = 1 ∧ s.arc.weak = 0) ∧
    (¬ (s.arc.strong = 1 ∧ s.arc.weak = 0) → Starc.get_mut s = none) := by
  refine ⟨rfl, ?_, ?_⟩
  · by_cases h : s.arc.strong = 1 ∧ s.arc.weak = 0 <;>
      simp [Starc.get_mut, Arc.get_mut, h]
  · intro h
    simp [Starc.get_mut, Arc.get_mut, h]

/-- Witness for C9: with a second strong holder, `get_mut` yields
nothing on every thread, while a unique holder gets access even on a
thread where `deref` would fail. -/
theorem starc_get_mut_spec_witness :
    Starc.get_mut (Starc.clone (Starc.new (9 : Nat) 0)) = none ∧
    Starc.get_mut { Starc.new (9 : Nat) 0 with thread := 1 } =
      Starc.get_mut (Starc.new (9 : Nat) 0) :=
  ⟨(starc_get_mut_spec (Starc.clone (Starc.new (9 : Nat) 0)) 1).2.2 (by decide),
   (starc_get_mut_spec (Starc.new (9 : Nat) 0) 1).1⟩

/-- C5: every queue family reports `max_queues() = 1`, adapter
enumeration yields exactly one queue family, and an `open` that gets
past the open-flag and feature checks with some family requesting two
or more queue priorities dies on the `assert_eq!` (a panic), never a
returned error. -/
theorem queue_family_single_queue (f fam : QueueFamily) (pd : Share)
    (env : OpenEnv) (families : List (QueueFamily × List QueuePriority))
    (prios : List QueuePriority) (rf : Features)
    (hmem : (fam, prios) ∈ families)
    (hlen : 2 ≤ prios.length)
    (hopen : pd.open_flag = false)
    (hfeat : Features.contains pd.features rf = true) :
    QueueFamily.max_queues f = 1 ∧
    new_adapter_queue_families.length = 1 ∧
    (PhysicalDevice.open_dev pd env families rf).2.2 = .panic := by
  refine ⟨rfl, rfl, ?_⟩
  have hall : families.all (fun g => g.2.length == 1) = false := by
    rcases h2 : families.all (fun g => g.2.length == 1)
    · rfl
    · exfalso
      have h3 := List.all_eq_true.mp h2 (fam, prios) hmem
      simp at h3
      omega
  rcases hc : (Share.check { pd with open_flag := true } env.debug env.getError).1
    with e | u
  · simp [PhysicalDevice.open_dev, hopen, hfeat, hc, hall]
  · simp [PhysicalDevice.open_dev, hopen, hfeat, hc, hall]

/-- Witness for C5: requesting two priorities from the single family at
a concrete closed state panics. -/
theorem queue_family_single_queue_witness :
    ((), ()) = ((), ()) ∧
    (QueueFamily.max_queues {} = 1 ∧
     new_adapter_queue_families.length = 1 ∧
     (PhysicalDevice.open_dev sampleShare sampleEnv [({}, [(), ()])] 0).2.2 =
       .panic) :=
  ⟨rfl,
   queue_family_single_queue {} {} sampleShare sampleEnv [({}, [(), ()])]
     [(), ()] 0 (by simp) (by decide) (by decide) (by decide)⟩

/-- C10: the `assert_eq!(priorities.len(), 1)` in `open` also fires on
an empty priority list: requesting zero queues for a family is a panic,
not a returned error. -/
theorem open_empty_priorities_panics (pd : Share) (env : OpenEnv)
    (families : List (QueueFamily × List QueuePriority))
    (fam : QueueFamily) (rf : Features)
    (hmem : (fam, ([] : List QueuePriority)) ∈ families)
    (hopen : pd.open_flag = false)
    (hfeat : Features.contains pd.features rf = true) :
    (PhysicalDevice.open_dev pd env families rf).2.2 = .panic := by
  have hall : families.all (fun g => g.2.length == 1) = false := by
    rcases h2 : families.all (fun g => g.2.length == 1)
    · rfl
    · exfalso
      have h3 := List.all_eq_true.mp h2 (fam, []) hmem
      simp at h3
  rcases hc : (Share.check { pd with open_flag := true } env.debug env.getError).1
    with e | u
  · simp [PhysicalDevice.open_dev, hopen, hfeat, hc, hall]
  · simp [PhysicalDevice.open_dev, hopen, hfeat, hc, hall]

/-- Witness for C10: requesting an empty priority list from the single
family at a concrete closed state panics. -/
theorem open_empty_priorities_panics_witness :
    (PhysicalDevice.open_dev sampleShare sampleEnv [({}, [])] 0).2.2 = .panic :=
  open_empty_priorities_panics sampleShare sampleEnv [({}, [])] {} 0
    (by simp) (by decide) (by decide)

/-- C8: in a release build `check` performs no native query and always
succeeds; in a diagnostics build it issues exactly one `glGetError`
query, succeeds on the "no error" code, and returns every other code as
the typed error `from_error_code` assigns to it, which is never
`NoError` and always one of the closed enumeration's error variants
(`UnknownError` for unrecognized codes). -/
theorem share_check_spec (s : Share) (e : Nat) :
    Share.check s false e = (.ok (), []) ∧
    (Share.check s true e).2 = [GLCall.GetError] ∧
    (e = gl.NO_ERROR → (Share.check s true e).1 = .ok ()) ∧
    (e ≠ gl.NO_ERROR →
      (Share.check s true e).1 = .error (Error.from_error_code e) ∧
      Error.from_error_code e ≠ Error.NoError ∧
      (Error.from_error_code e = Error.InvalidEnum ∨
       Error.from_error_code e = Error.InvalidValue ∨
       Error.from_error_code e = Error.InvalidOperation ∨
       Error.from_error_code e = Error.InvalidFramebufferOperation ∨
       Error.from_error_code e = Error.OutOfMemory ∨
       Error.from_error_code e = Error.UnknownError)) := by
  refine ⟨rfl, ?_, ?_, ?_⟩
  · unfold Share.check
    by_cases hc : Error.from_error_code e = Error.NoError <;> simp [hc]
  · intro h
    subst h
    simp [Share.check, Error.from_error_code]
  · intro h
    have hne : Error.from_error_code e ≠ Error.NoError := by
      unfold Error.from_error_code
      split_ifs <;> simp_all
    refine ⟨?_, hne, ?_⟩
    · simp [Share.check, hne]
    · unfold Error.from_error_code
      split_ifs <;> simp_all

/-- Witness for C8: the "invalid value" native code (0x0501) in a
diagnostics build is returned as a typed error and is not `NoError`. -/
theorem share_check_spec_witness :
    (0x0501 : Nat) ≠ gl.NO_ERROR ∧
    ((Share.check sampleShare true 0x0501).1 =
       .error (Error.from_error_code 0x0501) ∧
     Error.from_error_code 0x0501 ≠ Error.NoError ∧
     (Error.from_error_code 0x0501 = Error.InvalidEnum ∨
      Error.from_error_code 0x0501 = Error.InvalidValue ∨
      Error.from_error_code 0x0501 = Error.InvalidOperation ∨
      Error.from_error_code 0x0501 = Error.InvalidFramebufferOperation ∨
      Error.from_error_code 0x0501 = Error.OutOfMemory ∨
      Error.from_error_code 0x0501 = Error.UnknownError)) :=
  ⟨by decide, (share_check_spec sampleShare 0x0501).2.2.2 (by decide)⟩

end Gfx
